import Mathlib

/-!
Shallow embedding of the ESP32 weather-station firmware
(`src/config.h`, `src/data_sender.cpp`, `src/nvs_handler.cpp`,
`src/wifi_manager.cpp`, `src/web_interface.cpp`, `src/main.cpp`).

Machine floats/doubles are modelled as exact rationals; the IEEE NaN used by
the firmware as an "absent reading" sentinel is modelled by the `EDouble`
type (`nan` or a rational value).  C/C++ integer arithmetic on `int`/`long`
never overflows in the analog ranges involved (ADC readings are 0..4095 and
all intermediate products fit easily in 32 bits), so `ℤ` is used directly;
C integer division truncates toward zero, which is `Int.tdiv`.
`std::exp` is kept abstract as a function parameter `expf : ℚ → ℚ`.
Environment outcomes (WiFi connection results, NVS open results, FreeRTOS
semaphore availability, raw ADC readings) are explicit parameters.
-/

namespace WeatherStation

/-! ### Constants from `config.h` and `data_sender.cpp` -/

def DARK_THRESHOLD : ℤ := 500
def BRIGHT_THRESHOLD : ℤ := 3000
def WET_THRESHOLD : ℤ := 500
def DRY_THRESHOLD : ℤ := 4000

def G_CONST : ℚ := 9.80665
def MOLAR_MASS_AIR : ℚ := 0.0289644
def UNIV_GAS_CONST : ℚ := 8.31447
def STATION_ALTITUDE_METERS : ℚ := 262.0

/-! ### Arduino primitives used by the source

`map` is Arduino's integer remap: `(x - in_min) * (out_max - out_min) /
(in_max - in_min) + out_min` with C `long` division (truncation toward 0).
`constrain(amt, low, high)` is `(amt < low) ? low : ((amt > high) ? high : amt)`. -/

def arduinoMap (x inMin inMax outMin outMax : ℤ) : ℤ :=
  Int.tdiv ((x - inMin) * (outMax - outMin)) (inMax - inMin) + outMin

def constrain (amt low high : ℤ) : ℤ :=
  if amt < low then low else if amt > high then high else amt

/-! ### Doubles with NaN (`EDouble`) and C `round` -/

/-- A C `double` as used by the firmware: either NaN or an exact value. -/
inductive EDouble where
  | nan : EDouble
  | val : ℚ → EDouble
deriving DecidableEq

/-- Division `x / c` on doubles: NaN propagates (used for `readPressure()/100.0F`). -/
def EDouble.divC (x : EDouble) (c : ℚ) : EDouble :=
  match x with
  | .nan => .nan
  | .val v => .val (v / c)

/-- C `round`: half away from zero. -/
def cround (q : ℚ) : ℤ :=
  if 0 ≤ q then ⌊q + 1/2⌋ else ⌈q - 1/2⌉

/-- Rounding `round(q * 100.0) / 100.0` — two decimal places. -/
def round2 (q : ℚ) : ℚ := (cround (q * 100) : ℚ) / 100

/-- Rounding `round(q * 10000.0) / 10000.0` — four decimal places. -/
def round4 (q : ℚ) : ℚ := (cround (q * 10000) : ℚ) / 10000

/-! ### `reduceToMSL` (`data_sender.cpp` lines 39–55) -/

/-- Function `reduceToMSL(station_pressure_hpa, station_temperature_c, station_altitude_m)`
from `data_sender.cpp`, with `std::exp` abstracted as `expf`. -/
def reduceToMSL (expf : ℚ → ℚ) (station_pressure_hpa station_temperature_c : EDouble)
    (station_altitude_m : ℚ) : EDouble :=
  match station_pressure_hpa, station_temperature_c with
  | .nan, _ => .nan
  | _, .nan => .nan
  | .val p, .val t =>
    let station_temperature_k : ℚ := t + 273.15
    let station_pressure_pa : ℚ := p * 100.0
    let exponent : ℚ := (G_CONST * MOLAR_MASS_AIR * station_altitude_m) /
      (UNIV_GAS_CONST * station_temperature_k)
    let pressure_msl_pa : ℚ := station_pressure_pa * expf exponent
    .val (pressure_msl_pa / 100.0)

/-! ### Shared wind accumulator (`data_sender.cpp` lines 104–105, 127–133, 175–188) -/

/-- The shared state `totalWindSpeedSum` / `windReadingCount`. -/
structure WindAccumulator where
  totalWindSpeedSum : ℚ
  windReadingCount : ℕ
deriving DecidableEq

/-- The state both counters start from and are reset to. -/
def accInit : WindAccumulator := ⟨0, 0⟩

/-- One guarded accumulation step of `windSensorTaskFunction`:
`totalWindSpeedSum += x; windReadingCount++`. -/
def record (w : WindAccumulator) (x : ℚ) : WindAccumulator :=
  ⟨w.totalWindSpeedSum + x, w.windReadingCount + 1⟩

/-- The guarded drain block of `sensorTaskFunction` (lines 176–182): return
`sum / count` when `count > 0`, else `0.0`, and reset both fields to zero. -/
def drainAverage (w : WindAccumulator) : ℚ × WindAccumulator :=
  (if w.windReadingCount > 0 then
      w.totalWindSpeedSum / (w.windReadingCount : ℚ)
    else 0,
   accInit)

/-- An interleaving of the two accumulator operations. -/
inductive WindOp where
  | sample : ℚ → WindOp
  | drain : WindOp

/-- Run a sequence of operations on the accumulator state. -/
def runState : WindAccumulator → List WindOp → WindAccumulator
  | w, [] => w
  | w, WindOp.sample x :: rest => runState (record w x) rest
  | w, WindOp.drain :: rest => runState (drainAverage w).2 rest

/-- The samples recorded since the last drain, `acc` being those pending
before the sequence starts. -/
def pendingFrom : List ℚ → List WindOp → List ℚ
  | acc, [] => acc
  | acc, WindOp.sample x :: rest => pendingFrom (acc ++ [x]) rest
  | _, WindOp.drain :: rest => pendingFrom [] rest

/-- Samples recorded since the last drain, starting from a fresh accumulator. -/
def pending (ops : List WindOp) : List ℚ := pendingFrom [] ops

/-- Arithmetic mean of a list, `0` for the empty list. -/
def listMean (l : List ℚ) : ℚ :=
  if l.length > 0 then l.sum / (l.length : ℚ) else 0

/-! ### FreeRTOS mutex primitive

`xSemaphoreTake(mutex, timeout)` blocks for at most `timeout` ticks;
`portMAX_DELAY` (modelled as `none`) blocks indefinitely, in which case the
call can only ever return `pdTRUE`.  A bounded timeout may expire while the
semaphore is unavailable, modelled by the `available` environment flag. -/

def portMAX_DELAY : Option ℕ := none

def xSemaphoreTake (timeout : Option ℕ) (available : Bool) : Bool :=
  match timeout with
  | none => true
  | some _ => available

/-! ### Wind sampling task body (`windSensorTaskFunction`, lines 121–135) -/

/-- Speed `constrain(map((long)windSpeedAnalog, 0, 1023, 0, 3240), 0L, 3240L) / 100.0F`. -/
def currentWindSpeedms (windSpeedAnalog : ℤ) : ℚ :=
  ((constrain (arduinoMap windSpeedAnalog 0 1023 0 3240) 0 3240 : ℤ) : ℚ) / 100.0

/-- One loop iteration of `windSensorTaskFunction`: read, map, then take the
mutex with `portMAX_DELAY` and accumulate; on a failed take the sample is
dropped (only a log). -/
def windSensorStep (available : Bool) (windSpeedAnalog : ℤ)
    (w : WindAccumulator) : WindAccumulator :=
  if xSemaphoreTake portMAX_DELAY available then
    record w (currentWindSpeedms windSpeedAnalog)
  else w

/-! ### Telemetry cycle (`sensorTaskFunction`, lines 158–261) -/

/-- Device modes from `config.h`. -/
inductive DeviceMode where
  | MODE_UNCONFIGURED : DeviceMode
  | MODE_CONFIGURED : DeviceMode
deriving DecidableEq

open DeviceMode

/-- Percentage `constrain(map(rawRainAnalog, WET_THRESHOLD, DRY_THRESHOLD, 100, 0), 0, 100)`
(lines 169–170). -/
def precipitationPercentage (rawRainAnalog : ℤ) : ℤ :=
  constrain (arduinoMap rawRainAnalog WET_THRESHOLD DRY_THRESHOLD 100 0) 0 100

/-- Percentage `constrain(map(analogValue, BRIGHT_THRESHOLD, DARK_THRESHOLD, 100, 0), 0, 100)`
(line 202). -/
def brightnessPercentage (analogValue : ℤ) : ℤ :=
  constrain (arduinoMap analogValue BRIGHT_THRESHOLD DARK_THRESHOLD 100 0) 0 100

/-- JSON field value: `none` means the key is absent from the payload;
`some none` means the key is present with JSON `null`. -/
abbrev JsonField (α : Type) : Type := Option (Option α)

/-- Line 214: `if (analogValue != -1) jsonDocument["sunshine"] = brightnessPercentage;
else jsonDocument["sunshine"] = nullptr;`. -/
def sunshineField (analogValue : ℤ) : JsonField ℤ :=
  if analogValue ≠ -1 then some (some (brightnessPercentage analogValue))
  else some none

/-- Line 207: `if (!isnan(temp)) jsonDocument["temperature"] = round(temp*100)/100`. -/
def temperatureField (temp : EDouble) : Option ℚ :=
  match temp with
  | .val v => some (round2 v)
  | .nan => none

/-- Lines 209–211: report the rounded MSL-reduced pressure when it is a number,
else the rounded raw station pressure when that is a number, else omit the key. -/
def pressureField (expf : ℚ → ℚ) (pressure temp : EDouble) : Option ℚ :=
  match reduceToMSL expf pressure temp STATION_ALTITUDE_METERS with
  | .val v => some (round2 v)
  | .nan =>
    match pressure with
    | .val pv => some (round2 pv)
    | .nan => none

/-- Line 213: `if (!isnan(humidity)) jsonDocument["humidity"] = round(h*10000)/10000`. -/
def humidityField (humidity : EDouble) : Option ℚ :=
  match humidity with
  | .val v => some (round4 v)
  | .nan => none

/-- The JSON payload assembled by one telemetry cycle (lines 206–217). -/
structure TelemetryRecord where
  temperature : Option ℚ
  pressure : Option ℚ
  humidity : Option ℚ
  sunshine : JsonField ℤ
  wind_speed : ℚ
  precipitation : ℚ
deriving DecidableEq

/-- Per-cycle environment inputs of `sensorTaskFunction`: raw ADC readings,
whether BME280 init succeeded at task start, the three raw BME readings the
library would return this cycle, and the abstract `std::exp`. -/
structure CycleEnv where
  rawRainAnalog : ℤ
  analogValue : ℤ
  bmeSensorOk : Bool
  bmeTemp : EDouble
  bmePressureRaw : EDouble
  bmeHumidityRaw : EDouble
  expf : ℚ → ℚ

/-- One iteration of the `sensorTaskFunction` loop body (lines 158–261),
returning the wind-accumulator state afterwards and the payload sent
(`none` when the gate made the cycle a no-op). -/
def sensorCycle (currentDeviceMode : DeviceMode) (wifiConnected : Bool)
    (available : Bool) (env : CycleEnv) (w : WindAccumulator) :
    WindAccumulator × Option TelemetryRecord :=
  if currentDeviceMode = MODE_CONFIGURED ∧ wifiConnected = true then
    let precip := precipitationPercentage env.rawRainAnalog
    let takeOk := xSemaphoreTake portMAX_DELAY available
    let averageWindSpeed : ℚ := if takeOk then (drainAverage w).1 else 0
    let w' := if takeOk then (drainAverage w).2 else w
    let temp := if env.bmeSensorOk then env.bmeTemp else .nan
    let pressure := if env.bmeSensorOk then env.bmePressureRaw.divC 100.0 else .nan
    let humidity := if env.bmeSensorOk then env.bmeHumidityRaw.divC 100.0 else .nan
    let payload : TelemetryRecord :=
      { temperature := temperatureField temp
        pressure := pressureField env.expf pressure temp
        humidity := humidityField humidity
        sunshine := sunshineField env.analogValue
        wind_speed := round2 (averageWindSpeed * 3.6)
        precipitation := (cround ((precip : ℚ) * 10000.0) : ℚ) / 10000.0 }
    (w', some payload)
  else
    (w, none)

/-! ### Configuration store and connectivity state machine
(`nvs_handler.cpp`, `wifi_manager.cpp`, `web_interface.cpp`) -/

/-- The process-wide globals defined in `main.cpp` / `config.h`. -/
structure Globals where
  wifiSSID : String
  wifiPass : String
  userName : String
  serverAddress : String
  currentDeviceMode : DeviceMode
deriving DecidableEq

/-- The NVS `config` namespace: the mode key (read with default
`MODE_UNCONFIGURED`) and the four string keys, `none` when removed/absent. -/
structure NVSStore where
  mode : DeviceMode
  ssid : Option String
  pass : Option String
  user : Option String
  server : Option String
deriving DecidableEq

/-- Function `loadConfigurationFromNVS` (`nvs_handler.cpp` lines 47–79).  `openOk`
models whether `preferences.begin` succeeds.  Returns the updated globals and
the boolean result. -/
def loadConfigurationFromNVS (openOk : Bool) (g : Globals) (n : NVSStore) :
    Globals × Bool :=
  if openOk = false then (g, false)
  else
    let g := { g with currentDeviceMode := n.mode }
    if g.currentDeviceMode = MODE_CONFIGURED then
      let g := { g with
        wifiSSID := n.ssid.getD ""
        wifiPass := n.pass.getD ""
        userName := n.user.getD "defaultUser"
        serverAddress := n.server.getD "192.168.50.23:5000" }
      if g.wifiSSID.length > 0 then (g, true) else (g, false)
    else (g, false)

/-- Function `saveConfigurationToNVS` (`nvs_handler.cpp` lines 86–99): write all four
globals and `MODE_CONFIGURED` to NVS, then set the global mode. -/
def saveConfigurationToNVS (openOk : Bool) (g : Globals) (n : NVSStore) :
    Globals × NVSStore :=
  if openOk = false then (g, n)
  else
    ({ g with currentDeviceMode := MODE_CONFIGURED },
     { mode := MODE_CONFIGURED
       ssid := some g.wifiSSID
       pass := some g.wifiPass
       user := some g.userName
       server := some g.serverAddress })

/-- Function `clearConfigurationInNVS` (`nvs_handler.cpp` lines 107–122): set the NVS
mode to `MODE_UNCONFIGURED`, remove the four keys, set the global mode to
`MODE_UNCONFIGURED` and blank `wifiSSID` and `wifiPass` in RAM. -/
def clearConfigurationInNVS (openOk : Bool) (g : Globals) (n : NVSStore) :
    Globals × NVSStore :=
  if openOk = false then (g, n)
  else
    ({ g with
        currentDeviceMode := MODE_UNCONFIGURED
        wifiSSID := ""
        wifiPass := "" },
     { mode := MODE_UNCONFIGURED, ssid := none, pass := none,
       user := none, server := none })

/-- Function `switchToAPMode` (`wifi_manager.cpp` lines 27–58), state part: ends with
`currentDeviceMode = MODE_UNCONFIGURED` (AP start assumed to succeed; its
failure restarts the device). -/
def switchToAPMode (g : Globals) : Globals :=
  { g with currentDeviceMode := MODE_UNCONFIGURED }

/-- Function `connectToWiFi` (`wifi_manager.cpp` lines 83–114): `connected` models
whether the link came up within the 15 s bounded poll.  On success the global
mode becomes `MODE_CONFIGURED`; on failure it becomes `MODE_UNCONFIGURED`.
NVS is not touched here. -/
def connectToWiFi (connected : Bool) (g : Globals) : Globals × Bool :=
  if connected then ({ g with currentDeviceMode := MODE_CONFIGURED }, true)
  else ({ g with currentDeviceMode := MODE_UNCONFIGURED }, false)

/-- The credentials submitted through the `/connect` form. -/
structure Submitted where
  ssid : String
  pass : String
  user : String
  server : String

/-- Function `handleConnect` (`web_interface.cpp` lines 107–151), state part: overwrite
the in-RAM credentials with the submitted ones, attempt a bounded connect;
on success persist to NVS, on failure clear NVS and fall back to AP mode.
`argsOk` models `server.hasArg(...)` for all four fields, `connected` the
connect outcome, `nvsOpenOk` whether `preferences.begin` succeeds. -/
def handleConnect (argsOk connected nvsOpenOk : Bool) (sub : Submitted)
    (g : Globals) (n : NVSStore) : Globals × NVSStore :=
  if argsOk = false then (g, n)
  else
    let g := { g with
      wifiSSID := sub.ssid
      wifiPass := sub.pass
      userName := sub.user
      serverAddress := sub.server }
    let res := connectToWiFi connected g
    if res.2 then
      saveConfigurationToNVS nvsOpenOk res.1 n
    else
      let cleared := clearConfigurationInNVS nvsOpenOk res.1 n
      (switchToAPMode cleared.1, cleared.2)

/-- Function `checkAndReconnectWiFi` (`wifi_manager.cpp` lines 124–156): `linkUp`
models `WiFi.status() == WL_CONNECTED` on entry, `reconnected` the outcome of
the 10 s bounded `WiFi.reconnect()` poll.  Returns the new state and the
function's boolean result. -/
def checkAndReconnectWiFi (linkUp reconnected nvsOpenOk : Bool)
    (g : Globals) (n : NVSStore) : (Globals × NVSStore) × Bool :=
  if g.currentDeviceMode = MODE_CONFIGURED ∧ linkUp = false then
    if reconnected then ((g, n), true)
    else
      let cleared := clearConfigurationInNVS nvsOpenOk g n
      ((switchToAPMode cleared.1, cleared.2), false)
  else if g.currentDeviceMode = MODE_CONFIGURED ∧ linkUp = true then
    ((g, n), true)
  else
    ((g, n), false)

/-! ## Theorems -/

lemma runState_pendingFrom (ops : List WindOp) : ∀ acc : List ℚ,
    runState ⟨acc.sum, acc.length⟩ ops =
      ⟨(pendingFrom acc ops).sum, (pendingFrom acc ops).length⟩ := by
  induction ops with
  | nil => intro acc; rfl
  | cons op rest ih =>
    intro acc
    cases op with
    | sample x =>
      have hrec : record ⟨acc.sum, acc.length⟩ x =
          ⟨(acc ++ [x]).sum, (acc ++ [x]).length⟩ := by
        simp [record]
      show runState (record ⟨acc.sum, acc.length⟩ x) rest = _
      rw [hrec]
      exact ih (acc ++ [x])
    | drain =>
      show runState (drainAverage ⟨acc.sum, acc.length⟩).2 rest = _
      have : (drainAverage ⟨acc.sum, acc.length⟩).2 =
          ⟨(([] : List ℚ)).sum, ([] : List ℚ).length⟩ := rfl
      rw [this]
      exact ih []

lemma runState_from_init (ops : List WindOp) :
    runState accInit ops = ⟨(pending ops).sum, (pending ops).length⟩ :=
  runState_pendingFrom ops []

/-- C1: in any interleaving of `record` and `drainAverage` starting from the
fresh accumulator, the next drain returns the arithmetic mean of exactly the
samples recorded since the previous drain (`0` when there are none), resets
both the running sum and the count to zero, and a second drain in immediate
succession returns `0`. -/
theorem drain_returns_mean_and_resets (ops : List WindOp) :
    (drainAverage (runState accInit ops)).1 = listMean (pending ops)
    ∧ (drainAverage (runState accInit ops)).2 = accInit
    ∧ (drainAverage (drainAverage (runState accInit ops)).2).1 = 0 := by
  rw [runState_from_init ops]
  refine ⟨?_, rfl, rfl⟩
  simp [drainAverage, listMean]

lemma constrain_mem (x lo hi : ℤ) (h : lo ≤ hi) :
    lo ≤ constrain x lo hi ∧ constrain x lo hi ≤ hi := by
  unfold constrain
  split_ifs <;> omega

lemma precip_in_range (raw : ℤ) (h1 : WET_THRESHOLD ≤ raw) (h2 : raw ≤ DRY_THRESHOLD) :
    precipitationPercentage raw =
      100 - (raw - WET_THRESHOLD) * 100 / (DRY_THRESHOLD - WET_THRESHOLD) := by
  unfold precipitationPercentage arduinoMap WET_THRESHOLD DRY_THRESHOLD at *
  have e1 : (raw - 500) * (0 - 100) = -((raw - 500) * 100) := by ring
  rw [e1, Int.neg_tdiv, Int.tdiv_eq_ediv (by omega) (by omega)]
  unfold constrain
  split_ifs <;> omega

/-- C5: a raw rain reading at the wet threshold maps to 100 %, one at the dry
threshold to 0 %, readings in between follow the inverse-linear integer map,
the map is antitone on the threshold interval, and the reported percentage is
clamped into [0, 100] for every raw reading. -/
theorem precipitation_mapping :
    precipitationPercentage WET_THRESHOLD = 100
    ∧ precipitationPercentage DRY_THRESHOLD = 0
    ∧ (∀ raw : ℤ, WET_THRESHOLD ≤ raw → raw ≤ DRY_THRESHOLD →
        precipitationPercentage raw =
          100 - (raw - WET_THRESHOLD) * 100 / (DRY_THRESHOLD - WET_THRESHOLD))
    ∧ (∀ a b : ℤ, WET_THRESHOLD ≤ a → a ≤ b → b ≤ DRY_THRESHOLD →
        precipitationPercentage b ≤ precipitationPercentage a)
    ∧ (∀ raw : ℤ, 0 ≤ precipitationPercentage raw ∧ precipitationPercentage raw ≤ 100) := by
  refine ⟨by decide, by decide, precip_in_range, ?_, ?_⟩
  · intro a b ha hab hb
    rw [precip_in_range a ha (le_trans hab hb), precip_in_range b (le_trans ha hab) hb]
    unfold WET_THRESHOLD DRY_THRESHOLD
    omega
  · intro raw
    exact constrain_mem _ 0 100 (by omega)

/-- Witness for C5 at concrete inputs: a mid-scale reading and an
out-of-range reading. -/
theorem precipitation_mapping_witness :
    precipitationPercentage 2250 = 50
    ∧ 0 ≤ precipitationPercentage 4500 ∧ precipitationPercentage 4500 ≤ 100 := by
  refine ⟨?_, (precipitation_mapping.2.2.2.2 4500).1, (precipitation_mapping.2.2.2.2 4500).2⟩
  have h := precipitation_mapping.2.2.1 2250 (by decide) (by decide)
  rw [h]
  decide

lemma bright_in_range (x : ℤ) (h1 : DARK_THRESHOLD ≤ x) (h2 : x ≤ BRIGHT_THRESHOLD) :
    brightnessPercentage x =
      100 - (BRIGHT_THRESHOLD - x) * 100 / (BRIGHT_THRESHOLD - DARK_THRESHOLD) := by
  unfold brightnessPercentage arduinoMap BRIGHT_THRESHOLD DARK_THRESHOLD at *
  have e1 : (x - 3000) * (0 - 100) = (3000 - x) * 100 := by ring
  have e2 : (500 - 3000 : ℤ) = -2500 := by norm_num
  rw [e1, e2, Int.tdiv_neg, Int.tdiv_eq_ediv (by omega) (by omega)]
  unfold constrain
  split_ifs <;> omega

/-- C6 counterexample: at the in-code "no valid reading" sentinel `-1` the
`sunshine` key is written as JSON `null` — it is present in the payload, not
absent as the claim states. -/
theorem sunshine_null_not_absent :
    sunshineField (-1) = some none ∧ sunshineField (-1) ≠ (none : JsonField ℤ) := by
  exact ⟨rfl, by decide⟩

/-- C6 (amended): a reading at the bright threshold yields 100 %, one at the
dark threshold 0 %, the mapping is monotone between the thresholds and
clamped to [0, 100]; and when no valid raw reading is obtained (the `-1`
sentinel) the `sunshine` key is present with JSON `null` — neither absent nor
zero — while any other reading reports the mapped percentage. -/
theorem brightness_mapping :
    brightnessPercentage BRIGHT_THRESHOLD = 100
    ∧ brightnessPercentage DARK_THRESHOLD = 0
    ∧ (∀ a b : ℤ, DARK_THRESHOLD ≤ a → a ≤ b → b ≤ BRIGHT_THRESHOLD →
        brightnessPercentage a ≤ brightnessPercentage b)
    ∧ (∀ x : ℤ, 0 ≤ brightnessPercentage x ∧ brightnessPercentage x ≤ 100)
    ∧ sunshineField (-1) = some none
    ∧ (∀ x : ℤ, x ≠ -1 → sunshineField x = some (some (brightnessPercentage x))) := by
  refine ⟨by decide, by decide, ?_, ?_, rfl, ?_⟩
  · intro a b ha hab hb
    rw [bright_in_range a ha (le_trans hab hb), bright_in_range b (le_trans ha hab) hb]
    unfold BRIGHT_THRESHOLD DARK_THRESHOLD
    omega
  · intro x
    exact constrain_mem _ 0 100 (by omega)
  · intro x hx
    simp [sunshineField, hx]

/-- Witness for C6 at concrete inputs: a mid-scale reading, an out-of-range
reading, and a regular reading's key. -/
theorem brightness_mapping_witness :
    brightnessPercentage 1750 ≤ brightnessPercentage 2250
    ∧ 0 ≤ brightnessPercentage 4000 ∧ brightnessPercentage 4000 ≤ 100
    ∧ sunshineField 2000 = some (some (brightnessPercentage 2000)) := by
  exact ⟨brightness_mapping.2.2.1 1750 2250 (by decide) (by decide) (by decide),
    (brightness_mapping.2.2.2.1 4000).1, (brightness_mapping.2.2.2.1 4000).2,
    brightness_mapping.2.2.2.2.2 2000 (by decide)⟩

/-- C3: `reduceToMSL` returns NaN whenever the station pressure or the
station temperature is NaN, for every altitude; for numeric inputs it
computes `p * exp(g*M*h / (R*(t + 273.15)))`, so at altitude `0` (where
`exp 0 = 1`) it returns the station pressure unchanged, in particular
`reduceToMSL(1000, 15, 0) = 1000`. -/
theorem reduceToMSL_spec (expf : ℚ → ℚ) (hexp : expf 0 = 1) :
    (∀ (t : EDouble) (h : ℚ), reduceToMSL expf .nan t h = .nan)
    ∧ (∀ (p : EDouble) (h : ℚ), reduceToMSL expf p .nan h = .nan)
    ∧ (∀ (p t h : ℚ), reduceToMSL expf (.val p) (.val t) h =
        .val (p * expf ((G_CONST * MOLAR_MASS_AIR * h) /
          (UNIV_GAS_CONST * (t + 273.15)))))
    ∧ (∀ p t : ℚ, reduceToMSL expf (.val p) (.val t) 0 = .val p) := by
  have hval : ∀ (p t h : ℚ), reduceToMSL expf (.val p) (.val t) h =
      .val (p * expf ((G_CONST * MOLAR_MASS_AIR * h) /
        (UNIV_GAS_CONST * (t + 273.15)))) := by
    intro p t h
    show EDouble.val _ = EDouble.val _
    congr 1
    ring
  refine ⟨fun t h => ?_, fun p h => ?_, hval, ?_⟩
  · cases t <;> rfl
  · cases p <;> rfl
  · intro p t
    rw [hval p t 0]
    congr 1
    rw [mul_zero, zero_div, hexp, mul_one]

/-- Witness for C3: with a concrete exponential satisfying `exp 0 = 1`,
`reduceToMSL` at zero altitude returns the 1000 hPa station pressure
unchanged, and NaN inputs give NaN. -/
theorem reduceToMSL_spec_witness :
    reduceToMSL (fun q => 1 + q) (.val 1000) (.val 15) 0 = .val 1000
    ∧ reduceToMSL (fun q => 1 + q) .nan (.val 15) 0 = .nan
    ∧ reduceToMSL (fun q => 1 + q) (.val 1000) .nan 0 = .nan := by
  have h := reduceToMSL_spec (fun q => 1 + q) (by norm_num)
  exact ⟨h.2.2.2 1000 15, h.1 (.val 15) 0, h.2.1 (.val 1000) 0⟩

/-- C4: when assembling the payload, a numeric MSL reduction is reported
(rounded); if the reduction is NaN but the raw station pressure is numeric,
the rounded raw pressure is reported instead; if the raw pressure is NaN
(hence the reduction is NaN as well), the `pressure` key is omitted. -/
theorem pressureField_fallback (expf : ℚ → ℚ) :
    (∀ pv : ℚ, pressureField expf (.val pv) .nan = some (round2 pv))
    ∧ (∀ t : EDouble, pressureField expf .nan t = none)
    ∧ (∀ pv tv v : ℚ,
        reduceToMSL expf (.val pv) (.val tv) STATION_ALTITUDE_METERS = .val v →
        pressureField expf (.val pv) (.val tv) = some (round2 v)) := by
  refine ⟨fun pv => rfl, fun t => ?_, ?_⟩
  · cases t <;> rfl
  · intro pv tv v hv
    unfold pressureField
    rw [hv]

/-- Witness for C4: concrete evaluations of all three branches. -/
theorem pressureField_fallback_witness :
    pressureField (fun _ => 1) (.val 1000) .nan = some (round2 1000)
    ∧ pressureField (fun _ => 1) .nan .nan = none
    ∧ pressureField (fun _ => 1) (.val 1000) (.val 15) = some (round2 1000) := by
  refine ⟨(pressureField_fallback (fun _ => 1)).1 1000,
    (pressureField_fallback (fun _ => 1)).2.1 .nan,
    (pressureField_fallback (fun _ => 1)).2.2 1000 15 1000 ?_⟩
  show EDouble.val _ = EDouble.val _
  congr 1
  norm_num

/-- C7 counterexample: after `clearConfigurationInNVS` the in-process
`userName` keeps its old non-empty value (and so does `serverAddress`) —
the claim that all four credential fields are cleared is false. -/
theorem clear_keeps_userName :
    ((clearConfigurationInNVS true
        ⟨"net", "pw", "alice", "srv:5000", DeviceMode.MODE_CONFIGURED⟩
        ⟨DeviceMode.MODE_CONFIGURED, some "net", some "pw", some "alice",
          some "srv:5000"⟩).1).userName = "alice"
    ∧ ((clearConfigurationInNVS true
        ⟨"net", "pw", "alice", "srv:5000", DeviceMode.MODE_CONFIGURED⟩
        ⟨DeviceMode.MODE_CONFIGURED, some "net", some "pw", some "alice",
          some "srv:5000"⟩).1).serverAddress = "srv:5000"
    ∧ "alice" ≠ "" := by
  exact ⟨rfl, rfl, by decide⟩

/-- C7 (amended): on reverting to Unconfigured, `clearConfigurationInNVS`
blanks only `wifiSSID` and `wifiPass` in process memory, leaves `userName`
and `serverAddress` untouched in RAM, sets the mode to Unconfigured, and
erases the whole persisted configuration. -/
theorem clearConfiguration_effect (g : Globals) (n : NVSStore) :
    (clearConfigurationInNVS true g n).1.wifiSSID = ""
    ∧ (clearConfigurationInNVS true g n).1.wifiPass = ""
    ∧ (clearConfigurationInNVS true g n).1.userName = g.userName
    ∧ (clearConfigurationInNVS true g n).1.serverAddress = g.serverAddress
    ∧ (clearConfigurationInNVS true g n).1.currentDeviceMode = MODE_UNCONFIGURED
    ∧ (clearConfigurationInNVS true g n).2 =
        ⟨MODE_UNCONFIGURED, none, none, none, none⟩ := by
  exact ⟨rfl, rfl, rfl, rfl, rfl, rfl⟩

/-- C8: in a telemetry cycle where the device mode is not Configured or the
station link is down, the task performs no action: the wind accumulator is
untouched (no drain) and nothing is transmitted. -/
theorem cycle_noop_when_gated (mode : DeviceMode) (wifiConnected available : Bool)
    (env : CycleEnv) (w : WindAccumulator)
    (h : ¬(mode = MODE_CONFIGURED ∧ wifiConnected = true)) :
    sensorCycle mode wifiConnected available env w = (w, none) := by
  unfold sensorCycle
  rw [if_neg h]

/-- Witness for C8: an unconfigured device with a live link sends nothing,
and so does a configured device with the link down. -/
theorem cycle_noop_witness :
    sensorCycle MODE_UNCONFIGURED true true
      ⟨0, 0, false, .nan, .nan, .nan, fun _ => 1⟩ accInit = (accInit, none)
    ∧ sensorCycle MODE_CONFIGURED false true
      ⟨0, 0, false, .nan, .nan, .nan, fun _ => 1⟩ ⟨7, 3⟩ = (⟨7, 3⟩, none) := by
  exact ⟨cycle_noop_when_gated _ _ _ _ _ (by simp),
    cycle_noop_when_gated _ _ _ _ _ (by simp)⟩

/-- C10: both tasks take the wind-data mutex with `portMAX_DELAY`, and such a
take never reports failure, whatever the contention: the sampling step always
records its sample, and an executed telemetry cycle always drains the
accumulator to zero and reports the drained average (converted to km/h and
rounded) — the zero-contribution fallback branches are unreachable. -/
theorem portMAX_take_never_fails (available : Bool) (raw : ℤ)
    (env : CycleEnv) (w : WindAccumulator) :
    xSemaphoreTake portMAX_DELAY available = true
    ∧ windSensorStep available raw w = record w (currentWindSpeedms raw)
    ∧ (sensorCycle MODE_CONFIGURED true available env w).1 = accInit
    ∧ ∃ payload : TelemetryRecord,
        (sensorCycle MODE_CONFIGURED true available env w).2 = some payload
        ∧ payload.wind_speed = round2 ((drainAverage w).1 * 3.6) := by
  refine ⟨rfl, rfl, ?_, ?_⟩
  · simp [sensorCycle, xSemaphoreTake, portMAX_DELAY, drainAverage]
  · exact ⟨_, rfl, rfl⟩

lemma length_pos_of_ne_empty (s : String) (h : s ≠ "") : 0 < s.length := by
  rcases s with ⟨l⟩
  cases l with
  | nil => simp at h
  | cons a t => simp [String.length]

/-- C9: saving a configuration with a non-empty SSID and then loading
restores exactly the saved four fields with mode Configured and returns
`true`; after a clear, a load returns `false`; and a load returns `false`
whenever the stored mode is Unconfigured or the stored SSID is empty. -/
theorem nvs_roundtrip (g g2 : Globals) (n : NVSStore) (hssid : g.wifiSSID ≠ "") :
    (loadConfigurationFromNVS true g2 (saveConfigurationToNVS true g n).2).2 = true
    ∧ (loadConfigurationFromNVS true g2 (saveConfigurationToNVS true g n).2).1 =
        { wifiSSID := g.wifiSSID, wifiPass := g.wifiPass, userName := g.userName,
          serverAddress := g.serverAddress, currentDeviceMode := MODE_CONFIGURED }
    ∧ (∀ g3 g4 : Globals, ∀ n3 : NVSStore,
        (loadConfigurationFromNVS true g4 (clearConfigurationInNVS true g3 n3).2).2 = false)
    ∧ (∀ g5 : Globals, ∀ n5 : NVSStore, n5.mode = MODE_UNCONFIGURED →
        (loadConfigurationFromNVS true g5 n5).2 = false)
    ∧ (∀ g6 : Globals, ∀ n6 : NVSStore, (n6.ssid = none ∨ n6.ssid = some "") →
        (loadConfigurationFromNVS true g6 n6).2 = false) := by
  have hload : ∀ g2 : Globals,
      loadConfigurationFromNVS true g2 (saveConfigurationToNVS true g n).2 =
        ({ wifiSSID := g.wifiSSID, wifiPass := g.wifiPass, userName := g.userName,
           serverAddress := g.serverAddress, currentDeviceMode := MODE_CONFIGURED }, true) := by
    intro g2
    have hlen : 0 < g.wifiSSID.length := length_pos_of_ne_empty _ hssid
    simp [loadConfigurationFromNVS, saveConfigurationToNVS, hlen]
  refine ⟨by rw [hload g2], by rw [hload g2], ?_, ?_, ?_⟩
  · intro g3 g4 n3
    simp [loadConfigurationFromNVS, clearConfigurationInNVS]
  · intro g5 n5 hmode
    simp [loadConfigurationFromNVS, hmode]
  · intro g6 n6 hempty
    cases hm : n6.mode with
    | MODE_UNCONFIGURED => simp [loadConfigurationFromNVS, hm]
    | MODE_CONFIGURED =>
      rcases hempty with he | he <;>
        simp [loadConfigurationFromNVS, hm, he, String.length]

/-- Witness for C9: a concrete save/load round-trip and a concrete
clear-then-load. -/
theorem nvs_roundtrip_witness :
    (loadConfigurationFromNVS true ⟨"", "", "u", "s", DeviceMode.MODE_UNCONFIGURED⟩
      (saveConfigurationToNVS true ⟨"net", "pw", "alice", "srv:5000", DeviceMode.MODE_UNCONFIGURED⟩
        ⟨DeviceMode.MODE_UNCONFIGURED, none, none, none, none⟩).2).2 = true
    ∧ (loadConfigurationFromNVS true ⟨"", "", "u", "s", DeviceMode.MODE_UNCONFIGURED⟩
        (clearConfigurationInNVS true ⟨"net", "pw", "alice", "srv:5000", DeviceMode.MODE_CONFIGURED⟩
          ⟨DeviceMode.MODE_CONFIGURED, some "net", some "pw", some "alice", some "srv:5000"⟩).2).2
      = false := by
  have h := nvs_roundtrip ⟨"net", "pw", "alice", "srv:5000", DeviceMode.MODE_UNCONFIGURED⟩
    ⟨"", "", "u", "s", DeviceMode.MODE_UNCONFIGURED⟩
    ⟨DeviceMode.MODE_UNCONFIGURED, none, none, none, none⟩ (by decide)
  exact ⟨h.1, h.2.2.1
    ⟨"net", "pw", "alice", "srv:5000", DeviceMode.MODE_CONFIGURED⟩ _
    ⟨DeviceMode.MODE_CONFIGURED, some "net", some "pw", some "alice", some "srv:5000"⟩⟩

/-- C2: on the connectivity state machine — a portal submission whose connect
succeeds ends Configured with the submitted credentials persisted; one whose
connect fails ends Unconfigured with the stored configuration cleared; from
Configured, link loss with a failed bounded reconnect clears the stored
configuration and ends Unconfigured; link loss with a successful reconnect
leaves both the mode and all credentials untouched. -/
theorem connectivity_state_machine (sub : Submitted) (g gc : Globals) (n nc : NVSStore)
    (hc : gc.currentDeviceMode = MODE_CONFIGURED) :
    ((handleConnect true true true sub g n).1.currentDeviceMode = MODE_CONFIGURED
      ∧ (handleConnect true true true sub g n).2 =
          ⟨MODE_CONFIGURED, some sub.ssid, some sub.pass, some sub.user, some sub.server⟩)
    ∧ ((handleConnect true false true sub g n).1.currentDeviceMode = MODE_UNCONFIGURED
      ∧ (handleConnect true false true sub g n).2 =
          ⟨MODE_UNCONFIGURED, none, none, none, none⟩)
    ∧ ((checkAndReconnectWiFi false false true gc nc).1.1.currentDeviceMode = MODE_UNCONFIGURED
      ∧ (checkAndReconnectWiFi false false true gc nc).1.2 =
          ⟨MODE_UNCONFIGURED, none, none, none, none⟩)
    ∧ (checkAndReconnectWiFi false true true gc nc).1 = (gc, nc) := by
  refine ⟨⟨rfl, rfl⟩, ⟨rfl, rfl⟩, ?_, ?_⟩ <;>
    simp [checkAndReconnectWiFi, hc, clearConfigurationInNVS, switchToAPMode]

/-- Witness for C2: the four transitions at concrete credentials and states. -/
theorem connectivity_state_machine_witness :
    ((handleConnect true true true ⟨"s1", "p1", "u1", "a1"⟩
        ⟨"", "", "defaultUser", "192.168.50.200:5000", DeviceMode.MODE_UNCONFIGURED⟩
        ⟨DeviceMode.MODE_UNCONFIGURED, none, none, none, none⟩).1.currentDeviceMode
      = DeviceMode.MODE_CONFIGURED)
    ∧ (checkAndReconnectWiFi false true true
        ⟨"s1", "p1", "u1", "a1", DeviceMode.MODE_CONFIGURED⟩
        ⟨DeviceMode.MODE_CONFIGURED, some "s1", some "p1", some "u1", some "a1"⟩).1 =
      (⟨"s1", "p1", "u1", "a1", DeviceMode.MODE_CONFIGURED⟩,
       ⟨DeviceMode.MODE_CONFIGURED, some "s1", some "p1", some "u1", some "a1"⟩) := by
  have h := connectivity_state_machine ⟨"s1", "p1", "u1", "a1"⟩
    ⟨"", "", "defaultUser", "192.168.50.200:5000", DeviceMode.MODE_UNCONFIGURED⟩
    ⟨"s1", "p1", "u1", "a1", DeviceMode.MODE_CONFIGURED⟩
    ⟨DeviceMode.MODE_UNCONFIGURED, none, none, none, none⟩
    ⟨DeviceMode.MODE_CONFIGURED, some "s1", some "p1", some "u1", some "a1"⟩ rfl
  exact ⟨h.1.1, h.2.2.2⟩

end WeatherStation
